import Mathlib

/-!
Shallow embedding of `src/AnimatedPhotoView.tsx` (animated-photo-view).

The embedding translates the pure geometry/style computations of the React
component into Lean functions over `ℚ`, and the timer-driven open/close
sequencing into an explicit event-step machine on a `ViewerState` record.
Scheduled callbacks (the 0 ms `updating` pulse and the `duration`-long
phase-ending timers) become pending-flags consumed by timer events; the
guarantee that the 0 ms timer fires before a simultaneously scheduled
`duration` timer is encoded as a guard on the long timers.
-/

namespace APV

/-- Geometry of a DOM element as seen by the two query surfaces the code
uses: `getBoundingClientRect()` (the `rect*` fields) and the offset box
(`offsetWidth`/`offsetHeight`).  These can disagree (e.g. CSS transforms). -/
structure ElementGeom where
  rectX : ℚ
  rectY : ℚ
  rectWidth : ℚ
  rectHeight : ℚ
  offsetWidth : ℚ
  offsetHeight : ℚ
deriving DecidableEq

/-- The DOM world: the current geometry of every element, indexed by an
element reference.  Reads through it model live queries at read time. -/
def World : Type := Nat → ElementGeom

/-- `HTMLElementAnimationTarget` stores only the element reference
(`this.target = target`); it snapshots no geometry at construction. -/
structure HTMLElementAnimationTarget where
  target : Nat
deriving DecidableEq

/-- `get elementBounds() { return this.target.getBoundingClientRect() }` -/
def HTMLElementAnimationTarget.elementBounds (t : HTMLElementAnimationTarget)
    (w : World) : ElementGeom :=
  w t.target

/-- `get x() { return this.elementBounds.x }` -/
def HTMLElementAnimationTarget.x (t : HTMLElementAnimationTarget) (w : World) : ℚ :=
  (t.elementBounds w).rectX

/-- `get y() { return this.elementBounds.y }` -/
def HTMLElementAnimationTarget.y (t : HTMLElementAnimationTarget) (w : World) : ℚ :=
  (t.elementBounds w).rectY

/-- `get width() { return this.target.offsetWidth }` -/
def HTMLElementAnimationTarget.width (t : HTMLElementAnimationTarget) (w : World) : ℚ :=
  (w t.target).offsetWidth

/-- `get height() { return this.target.offsetHeight }` -/
def HTMLElementAnimationTarget.height (t : HTMLElementAnimationTarget) (w : World) : ℚ :=
  (w t.target).offsetHeight

/-- `CustomAnimationTarget`: a static rectangle with fixed numeric fields. -/
structure CustomAnimationTarget where
  x : ℚ
  y : ℚ
  width : ℚ
  height : ℚ
deriving DecidableEq

/-- A loaded `HTMLImageElement`: its `src` URL, natural pixel dimensions,
and its own on-screen box (an image element can itself serve as an
animation target, since it exposes `x`/`y`/`width`/`height`). -/
structure HTMLImageElement where
  src : String
  naturalWidth : ℚ
  naturalHeight : ℚ
  x : ℚ
  y : ℚ
  width : ℚ
  height : ℚ
deriving DecidableEq

/-- `type ImageSource = string | HTMLImageElement` -/
inductive ImageSource
  | url (s : String)
  | img (e : HTMLImageElement)
deriving DecidableEq

/-- `class ImageSourceResolver { source: ImageSource }` -/
structure ImageSourceResolver where
  source : ImageSource
deriving DecidableEq

/-- `get isString() { return typeof this.source === 'string' }` -/
def ImageSourceResolver.isString (r : ImageSourceResolver) : Bool :=
  match r.source with
  | .url _ => true
  | .img _ => false

/-- `get isElement() { return !this.isString }` -/
def ImageSourceResolver.isElement (r : ImageSourceResolver) : Bool :=
  !r.isString

/-- `get url()`: the string itself, or the element's `src`. -/
def ImageSourceResolver.url (r : ImageSourceResolver) : String :=
  match r.source with
  | .url s => s
  | .img e => e.src

/-- The `AnimationTarget` values that can be stored in the viewer state:
a live element-bound target, an image element used as its own target, or
a static rectangle. -/
inductive AnimationTarget
  | element (t : HTMLElementAnimationTarget)
  | imgElement (e : HTMLImageElement)
  | custom (t : CustomAnimationTarget)
deriving DecidableEq

/-- Read `target.x` at the current world. -/
def AnimationTarget.xAt : AnimationTarget → World → ℚ
  | .element t, w => t.x w
  | .imgElement e, _ => e.x
  | .custom t, _ => t.x

/-- Read `target.y` at the current world. -/
def AnimationTarget.yAt : AnimationTarget → World → ℚ
  | .element t, w => t.y w
  | .imgElement e, _ => e.y
  | .custom t, _ => t.y

/-- Read `target.width` at the current world. -/
def AnimationTarget.widthAt : AnimationTarget → World → ℚ
  | .element t, w => t.width w
  | .imgElement e, _ => e.width
  | .custom t, _ => t.width

/-- Read `target.height` at the current world. -/
def AnimationTarget.heightAt : AnimationTarget → World → ℚ
  | .element t, w => t.height w
  | .imgElement e, _ => e.height
  | .custom t, _ => t.height

/-- `AnimatedPhotoViewController.openView`'s target resolution:
`if (animationTarget === undefined && _source.isElement) animationTarget = _source.image;`
then `if (!animationTarget) animationTarget = new CustomAnimationTarget(innerWidth/2, innerHeight/2, 10, 10)`. -/
def resolveAnimationTarget (s : ImageSourceResolver)
    (animationTarget : Option AnimationTarget) (innerWidth innerHeight : ℚ) :
    AnimationTarget :=
  let t1 : Option AnimationTarget :=
    match animationTarget, s.source with
    | none, .img e => some (.imgElement e)
    | t, _ => t
  match t1 with
  | some t => t
  | none => .custom ⟨innerWidth / 2, innerHeight / 2, 10, 10⟩

/-- `const imageAspectRatio = image.current ? (image.current.naturalHeight || 1) / (image.current.naturalWidth || 1) : 1`.
The argument is `none` when no image element is mounted/loaded, otherwise
`some (naturalWidth, naturalHeight)`. -/
def imageAspectRatio (image : Option (ℚ × ℚ)) : ℚ :=
  match image with
  | none => 1
  | some (naturalWidth, naturalHeight) =>
      (if naturalHeight = 0 then 1 else naturalHeight) /
        (if naturalWidth = 0 then 1 else naturalWidth)

/-- `const screenAspectRatio = bodyHeight / bodyWidth` -/
def screenAspectRatio (bodyWidth bodyHeight : ℚ) : ℚ :=
  bodyHeight / bodyWidth

/-- The `(horizontalMargins, verticalMargins)` pair: initialised to
`(true, false)` and flipped to `(false, true)` when
`imageAspectRatio < screenAspectRatio`. -/
def marginModes (iar sar : ℚ) : Bool × Bool :=
  if iar < sar then (false, true) else (true, false)

/-- `let left = (bodyWidth - (screenAspectRatio / imageAspectRatio) * bodyWidth) / 2; if (left < 0) left = 0` -/
def fitPaddingLeft (bodyWidth iar sar : ℚ) : ℚ :=
  let l := (bodyWidth - (sar / iar) * bodyWidth) / 2
  if l < 0 then 0 else l

/-- `opacity: (!(visible && !updating) || closing) ? 0 : 1` -/
def bgOpacity (visible updating closing : Bool) : ℚ :=
  if !(visible && !updating) || closing then 0 else 1

/-- The ViewerState owned by the `AnimatedPhotoView` component: the React
state hooks plus bookkeeping for the scheduled callbacks (`pendingUpdateEnd`
is the 0 ms timer of `useUpdate`, `pendingOpenEnd`/`pendingCloseEnd` the
`duration`-long timers of `openView`/`closeView`). -/
structure ViewerState where
  visible : Bool
  opening : Bool
  closing : Bool
  updating : Bool
  animationTarget : Option AnimationTarget
  source : Option ImageSourceResolver
  pendingUpdateEnd : Bool
  pendingOpenEnd : Bool
  pendingCloseEnd : Bool
deriving DecidableEq

/-- `const animating = closing || opening` -/
def ViewerState.animating (s : ViewerState) : Bool :=
  s.closing || s.opening

/-- The initial state: nothing visible, no transition, no target/source. -/
def initialState : ViewerState :=
  { visible := false, opening := false, closing := false, updating := false
    animationTarget := none, source := none
    pendingUpdateEnd := false, pendingOpenEnd := false, pendingCloseEnd := false }

/-- `openView`: guarded by `if (animating) return`; sets `visible`,
`source`, `opening`, `animationTarget`, starts the `updating` pulse
(`update()` sets `updating` true and schedules the 0 ms timer) and
schedules `setOpening(false)` after `duration`. -/
def openView (source : ImageSourceResolver) (animationTarget : AnimationTarget)
    (s : ViewerState) : ViewerState :=
  if s.animating then s
  else
    { s with
      visible := true
      source := some source
      opening := true
      animationTarget := some animationTarget
      updating := true
      pendingUpdateEnd := true
      pendingOpenEnd := true }

/-- `closeView`: guarded by `if (animating) return`; its declared type
`closeView(animateTo?)` takes an optional target which the implementation
`function closeView() {...}` never reads.  Starts the `updating` pulse,
sets `closing` and schedules the `duration` timer that ends the close. -/
def closeView (_animateTo : Option AnimationTarget) (s : ViewerState) : ViewerState :=
  if s.animating then s
  else
    { s with
      updating := true
      pendingUpdateEnd := true
      closing := true
      pendingCloseEnd := true }

/-- The 0 ms timer of `useUpdate` fires: `setUpdating(false)`. -/
def fireUpdateEnd (s : ViewerState) : ViewerState :=
  if s.pendingUpdateEnd then { s with updating := false, pendingUpdateEnd := false } else s

/-- The `duration` timer of `openView` fires: `setOpening(false)`.  A 0 ms
timer scheduled in the same call always fires first, hence the
`!s.pendingUpdateEnd` guard. -/
def fireOpenEnd (s : ViewerState) : ViewerState :=
  if s.pendingOpenEnd && !s.pendingUpdateEnd then
    { s with opening := false, pendingOpenEnd := false }
  else s

/-- The `duration` timer of `closeView` fires: `setClosing(false);
setVisible(false)`.  Same ordering guard as `fireOpenEnd`. -/
def fireCloseEnd (s : ViewerState) : ViewerState :=
  if s.pendingCloseEnd && !s.pendingUpdateEnd then
    { s with closing := false, visible := false, pendingCloseEnd := false }
  else s

/-- The events that drive the machine: the two controller-facing calls and
the three timer firings. -/
inductive Event
  | openCall (source : ImageSourceResolver) (target : AnimationTarget)
  | closeCall (animateTo : Option AnimationTarget)
  | updateEnd
  | openEnd
  | closeEnd

/-- One step of the machine. -/
def step (s : ViewerState) : Event → ViewerState
  | .openCall src t => openView src t s
  | .closeCall a => closeView a s
  | .updateEnd => fireUpdateEnd s
  | .openEnd => fireOpenEnd s
  | .closeEnd => fireCloseEnd s

/-- Run a sequence of events from the initial state. -/
def run (es : List Event) : ViewerState :=
  es.foldl step initialState

/-- A state reachable from the initial Closed state by open calls, close
calls and timer firings. -/
def Reachable (s : ViewerState) : Prop :=
  ∃ es : List Event, run es = s

/-- `animationTarget?.x || 0` -/
def targetXOr0 (t : Option AnimationTarget) (w : World) : ℚ :=
  match t with
  | none => 0
  | some t => t.xAt w

/-- `animationTarget?.y || 0` -/
def targetYOr0 (t : Option AnimationTarget) (w : World) : ℚ :=
  match t with
  | none => 0
  | some t => t.yAt w

/-- `animationTarget?.width || 0` -/
def targetWidthOr0 (t : Option AnimationTarget) (w : World) : ℚ :=
  match t with
  | none => 0
  | some t => t.widthAt w

/-- `animationTarget?.height || 0` -/
def targetHeightOr0 (t : Option AnimationTarget) (w : World) : ℚ :=
  match t with
  | none => 0
  | some t => t.heightAt w

/-- A CSS length that is either the literal `'100%'` or a pixel value. -/
inductive CSSDim
  | pct100
  | px (value : ℚ)
deriving DecidableEq

/-- The fields of the main container's style that the component computes. -/
structure ContainerStyle where
  width : CSSDim
  height : CSSDim
  left : ℚ
  top : ℚ
  paddingLeft : ℚ
  paddingRight : ℚ
deriving DecidableEq

/-- The main container style as a pure function of the state, the DOM
world, the body size and the loaded image's natural size: `_width`/`_height`/
`_left`/`_top` are overridden from the animation target while
`updating || closing`; `width`/`height` are `'100%'` unless `animating`;
the aspect-fit padding is computed and then forced to 0 while
`updating || closing`. -/
def containerStyle (s : ViewerState) (w : World) (bodyWidth bodyHeight : ℚ)
    (image : Option (ℚ × ℚ)) : ContainerStyle :=
  let pinned := s.updating || s.closing
  let w0 := if pinned then targetWidthOr0 s.animationTarget w else bodyWidth
  let h0 := if pinned then targetHeightOr0 s.animationTarget w else bodyHeight
  let l0 := if pinned then targetXOr0 s.animationTarget w else 0
  let t0 := if pinned then targetYOr0 s.animationTarget w else 0
  let iar := imageAspectRatio image
  let sar := screenAspectRatio bodyWidth bodyHeight
  let pad := fitPaddingLeft bodyWidth iar sar
  { width := if s.animating then .px w0 else .pct100
    height := if s.animating then .px h0 else .pct100
    left := l0
    top := t0
    paddingLeft := if pinned then 0 else pad
    paddingRight := if pinned then 0 else pad }

/-- Machine invariant: `opening` and `closing` are mutually exclusive, and
while the `updating` pulse is on, its 0 ms timer is still pending and one
of the transition flags is on. -/
def Inv (s : ViewerState) : Bool :=
  (!(s.opening && s.closing)) &&
  (!s.updating || s.pendingUpdateEnd) &&
  (!s.updating || s.opening || s.closing)

/-- A concrete example image source for witnesses. -/
def exampleSource : ImageSourceResolver :=
  ⟨.url "flower.jpg"⟩

/-- A concrete example animation target for witnesses. -/
def exampleTarget : AnimationTarget :=
  .custom ⟨100, 100, 50, 50⟩

/-- An event sequence reaching the steady fully-open state: open, let the
0 ms updating pulse end, let the `duration` timer end the opening phase. -/
def steadyOpenEvents : List Event :=
  [Event.openCall exampleSource exampleTarget, Event.updateEnd, Event.openEnd]

lemma inv_step (s : ViewerState) (e : Event) (h : Inv s = true) :
    Inv (step s e) = true := by
  rcases s with ⟨v, o, c, u, t, src, pu, po, pc⟩
  cases e <;>
    simp only [step, openView, closeView, fireUpdateEnd, fireOpenEnd, fireCloseEnd,
      ViewerState.animating, Inv] at h ⊢ <;>
    cases o <;> cases c <;> cases u <;> cases pu <;> cases po <;> cases pc <;>
    simp_all

lemma inv_run (es : List Event) : Inv (run es) = true := by
  suffices hgen : ∀ s : ViewerState, Inv s = true → Inv (es.foldl step s) = true by
    exact hgen initialState rfl
  induction es with
  | nil => intro s h; exact h
  | cons e es ih => intro s h; exact ih _ (inv_step s e h)

lemma reachable_inv (s : ViewerState) (h : Reachable s) : Inv s = true := by
  obtain ⟨es, rfl⟩ := h
  exact inv_run es

lemma if_neg_zero_eq_max (l : ℚ) : (if l < 0 then 0 else l) = max 0 l := by
  rcases lt_or_ge l 0 with h | h
  · simp [h, max_eq_left h.le]
  · simp [not_lt.mpr h, max_eq_right h]

lemma imageAspect_pos (naturalWidth naturalHeight : ℚ)
    (hw : 0 < naturalWidth) (hh : 0 < naturalHeight) :
    imageAspectRatio (some (naturalWidth, naturalHeight)) = naturalHeight / naturalWidth := by
  simp [imageAspectRatio, hw.ne', hh.ne']

/-- Claim C1, counterexample: for natural size `iw = 0, ih = 5` (so `iw`
is 0), the code computes `(5 || 1) / (0 || 1) = 5`, not 1 as the claim
states — the fallback 1 replaces each zero dimension individually, it is
not applied to the whole ratio. -/
theorem claim1_counterexample :
    ¬ imageAspectRatio (some ((0 : ℚ), 5)) = 1 := by
  norm_num [imageAspectRatio]

/-- Claim C1 (amended): for positive natural dimensions the computed
aspect ratio is `ih / iw`; the fallback 1 replaces each 0/unknown
dimension individually, so the ratio is 1 when no image element is
present or when both dimensions are 0, but it is `ih` when only `iw` is 0
and `1 / iw` when only `ih` is 0. -/
theorem claim1_image_aspect (naturalWidth naturalHeight : ℚ)
    (hw : 0 < naturalWidth) (hh : 0 < naturalHeight) :
    imageAspectRatio (some (naturalWidth, naturalHeight)) = naturalHeight / naturalWidth ∧
    imageAspectRatio none = 1 ∧
    imageAspectRatio (some (0, 0)) = 1 ∧
    imageAspectRatio (some (0, naturalHeight)) = naturalHeight ∧
    imageAspectRatio (some (naturalWidth, 0)) = 1 / naturalWidth := by
  refine ⟨imageAspect_pos _ _ hw hh, rfl, by norm_num [imageAspectRatio], ?_, ?_⟩ <;>
    simp [imageAspectRatio, hw.ne', hh.ne']

/-- Witness for C1 at natural size 2×3. -/
theorem claim1_witness :
    imageAspectRatio (some ((2 : ℚ), 3)) = 3 / 2 :=
  (claim1_image_aspect 2 3 (by norm_num) (by norm_num)).1

/-- Claim C2: with positive viewport and image dimensions, vertical-centering
mode (`horizontalMargins = false, verticalMargins = true`) is selected
exactly when `ih/iw < H/W`; otherwise — including at equality — the
horizontal-centering mode `(true, false)` is selected. -/
theorem claim2_margin_mode (bodyWidth bodyHeight naturalWidth naturalHeight : ℚ)
    (hW : 0 < bodyWidth) (hH : 0 < bodyHeight)
    (hw : 0 < naturalWidth) (hh : 0 < naturalHeight) :
    (naturalHeight / naturalWidth < bodyHeight / bodyWidth →
      marginModes (imageAspectRatio (some (naturalWidth, naturalHeight)))
        (screenAspectRatio bodyWidth bodyHeight) = (false, true)) ∧
    (¬ naturalHeight / naturalWidth < bodyHeight / bodyWidth →
      marginModes (imageAspectRatio (some (naturalWidth, naturalHeight)))
        (screenAspectRatio bodyWidth bodyHeight) = (true, false)) ∧
    (naturalHeight / naturalWidth = bodyHeight / bodyWidth →
      marginModes (imageAspectRatio (some (naturalWidth, naturalHeight)))
        (screenAspectRatio bodyWidth bodyHeight) = (true, false)) := by
  have hiar := imageAspect_pos naturalWidth naturalHeight hw hh
  refine ⟨?_, ?_, ?_⟩ <;> intro h <;>
    simp [marginModes, hiar, screenAspectRatio, h]

/-- Witness for C2: image 2000×1000 (ratio 1/2), viewport 500×1000
(ratio 2): vertical-centering mode. -/
theorem claim2_witness :
    marginModes (imageAspectRatio (some ((2000 : ℚ), 1000)))
      (screenAspectRatio 500 1000) = (false, true) :=
  (claim2_margin_mode 500 1000 2000 1000 (by norm_num) (by norm_num)
    (by norm_num) (by norm_num)).1 (by norm_num)

/-- Claim C4: the background opacity is 0 unless `visible ∧ ¬updating`, is
forced to 0 whenever `closing`, and is 1 exactly in the steady fully-open
state `visible ∧ ¬updating ∧ ¬closing`. -/
theorem claim4_bg_opacity (visible updating closing : Bool) :
    (¬ (visible = true ∧ updating = false) → bgOpacity visible updating closing = 0) ∧
    (closing = true → bgOpacity visible updating closing = 0) ∧
    (bgOpacity visible updating closing = 1 ↔
      visible = true ∧ updating = false ∧ closing = false) := by
  cases visible <;> cases updating <;> cases closing <;> simp [bgOpacity]

/-- Witness for C4 in the steady fully-open state. -/
theorem claim4_witness : bgOpacity true false false = 1 :=
  ((claim4_bg_opacity true false false).2.2).mpr ⟨rfl, rfl, rfl⟩

/-- Claim C6: with positive dimensions, the computed horizontal padding
equals `max 0 ((W - ((H/W)/(ih/iw)) * W) / 2)`, is nonnegative, and is
applied identically to the left and right sides of the container style. -/
theorem claim6_horizontal_padding (bodyWidth bodyHeight naturalWidth naturalHeight : ℚ)
    (hW : 0 < bodyWidth) (hH : 0 < bodyHeight)
    (hw : 0 < naturalWidth) (hh : 0 < naturalHeight)
    (s : ViewerState) (w : World) :
    fitPaddingLeft bodyWidth (imageAspectRatio (some (naturalWidth, naturalHeight)))
        (screenAspectRatio bodyWidth bodyHeight) =
      max 0 ((bodyWidth -
        ((bodyHeight / bodyWidth) / (naturalHeight / naturalWidth)) * bodyWidth) / 2) ∧
    0 ≤ fitPaddingLeft bodyWidth (imageAspectRatio (some (naturalWidth, naturalHeight)))
        (screenAspectRatio bodyWidth bodyHeight) ∧
    (containerStyle s w bodyWidth bodyHeight (some (naturalWidth, naturalHeight))).paddingLeft =
      (containerStyle s w bodyWidth bodyHeight (some (naturalWidth, naturalHeight))).paddingRight := by
  have hiar := imageAspect_pos naturalWidth naturalHeight hw hh
  have heq : fitPaddingLeft bodyWidth
      (imageAspectRatio (some (naturalWidth, naturalHeight)))
      (screenAspectRatio bodyWidth bodyHeight) =
      max 0 ((bodyWidth -
        ((bodyHeight / bodyWidth) / (naturalHeight / naturalWidth)) * bodyWidth) / 2) := by
    rw [hiar]
    unfold fitPaddingLeft screenAspectRatio
    exact if_neg_zero_eq_max _
  refine ⟨heq, ?_, rfl⟩
  rw [heq]
  exact le_max_left 0 _

/-- Witness for C6: viewport 500×1000, image 2000×1000. -/
theorem claim6_witness :
    fitPaddingLeft 500 (imageAspectRatio (some ((2000 : ℚ), 1000)))
        (screenAspectRatio 500 1000) =
      max 0 ((500 - ((1000 / 500) / (1000 / 2000)) * 500) / 2) ∧
    0 ≤ fitPaddingLeft 500 (imageAspectRatio (some ((2000 : ℚ), 1000)))
        (screenAspectRatio 500 1000) :=
  ⟨(claim6_horizontal_padding 500 1000 2000 1000 (by norm_num) (by norm_num)
      (by norm_num) (by norm_num) initialState (fun _ => ⟨0, 0, 0, 0, 0, 0⟩)).1,
   (claim6_horizontal_padding 500 1000 2000 1000 (by norm_num) (by norm_num)
      (by norm_num) (by norm_num) initialState (fun _ => ⟨0, 0, 0, 0, 0, 0⟩)).2.1⟩

/-- Claim C7: opening with a string (URL) source and no animation target
resolves to the static centered fallback rectangle
`(innerWidth/2, innerHeight/2, 10, 10)`; at a 1000×1000 viewport that is
`(500, 500, 10, 10)`. -/
theorem claim7_fallback_target (u : String) (innerWidth innerHeight : ℚ) :
    resolveAnimationTarget ⟨.url u⟩ none innerWidth innerHeight =
      .custom ⟨innerWidth / 2, innerHeight / 2, 10, 10⟩ ∧
    resolveAnimationTarget ⟨.url u⟩ none 1000 1000 =
      .custom ⟨500, 500, 10, 10⟩ := by
  refine ⟨rfl, ?_⟩
  show AnimationTarget.custom ⟨(1000 : ℚ) / 2, (1000 : ℚ) / 2, 10, 10⟩ =
    .custom ⟨500, 500, 10, 10⟩
  norm_num

/-- Claim C8: the element-bound animation target reads the element's
current state at each access — `x`/`y` from the bounding box, `width`/
`height` from the offset box — for every current world, independently of
any snapshot; and the two queries can disagree (a world exists where the
offset width differs from the bounding-box width). -/
theorem claim8_live_binding (e : Nat) (w : World) :
    HTMLElementAnimationTarget.x ⟨e⟩ w = (w e).rectX ∧
    HTMLElementAnimationTarget.y ⟨e⟩ w = (w e).rectY ∧
    HTMLElementAnimationTarget.width ⟨e⟩ w = (w e).offsetWidth ∧
    HTMLElementAnimationTarget.height ⟨e⟩ w = (w e).offsetHeight ∧
    (∃ w2 : World, ¬ HTMLElementAnimationTarget.width ⟨e⟩ w2 =
      (HTMLElementAnimationTarget.elementBounds ⟨e⟩ w2).rectWidth) := by
  refine ⟨rfl, rfl, rfl, rfl, ⟨fun _ => ⟨0, 0, 1, 1, 2, 2⟩, ?_⟩⟩
  show ¬ (2 : ℚ) = 1
  norm_num

/-- Claim C3: while a transition is in progress (`opening` or `closing`),
both `openView` and `closeView` are silent no-ops that leave the entire
state unchanged — in particular a `closeView` rejected during the
still-opening window never sets `closing`. -/
theorem claim3_concurrent_noop (s : ViewerState) (src : ImageSourceResolver)
    (t : AnimationTarget) (a : Option AnimationTarget)
    (h : s.opening = true ∨ s.closing = true) :
    openView src t s = s ∧ closeView a s = s := by
  have ha : s.animating = true := by
    rcases h with h | h <;> simp [ViewerState.animating, h]
  simp [openView, closeView, ha]

/-- Witness for C3: right after an open call the state is still opening,
and a close call leaves it unchanged. -/
theorem claim3_witness :
    (run [Event.openCall exampleSource exampleTarget]).opening = true ∧
    closeView none (run [Event.openCall exampleSource exampleTarget]) =
      run [Event.openCall exampleSource exampleTarget] :=
  ⟨rfl, (claim3_concurrent_noop (run [Event.openCall exampleSource exampleTarget])
    exampleSource exampleTarget none (Or.inl rfl)).2⟩

/-- Claim C5: in every reachable state, while `updating` or `closing` the
container style has zero left/right padding and takes its width, height,
left and top from the animation-target rectangle (0 when the target is
absent); otherwise the position is (0,0) and the aspect-fit padding is
applied on both sides. -/
theorem claim5_pinned_style (s : ViewerState) (h : Reachable s) (w : World)
    (bodyWidth bodyHeight : ℚ) (image : Option (ℚ × ℚ)) :
    ((s.updating || s.closing) = true →
      (containerStyle s w bodyWidth bodyHeight image).paddingLeft = 0 ∧
      (containerStyle s w bodyWidth bodyHeight image).paddingRight = 0 ∧
      (containerStyle s w bodyWidth bodyHeight image).left =
        targetXOr0 s.animationTarget w ∧
      (containerStyle s w bodyWidth bodyHeight image).top =
        targetYOr0 s.animationTarget w ∧
      (containerStyle s w bodyWidth bodyHeight image).width =
        .px (targetWidthOr0 s.animationTarget w) ∧
      (containerStyle s w bodyWidth bodyHeight image).height =
        .px (targetHeightOr0 s.animationTarget w)) ∧
    ((s.updating || s.closing) = false →
      (containerStyle s w bodyWidth bodyHeight image).left = 0 ∧
      (containerStyle s w bodyWidth bodyHeight image).top = 0 ∧
      (containerStyle s w bodyWidth bodyHeight image).paddingLeft =
        fitPaddingLeft bodyWidth (imageAspectRatio image)
          (screenAspectRatio bodyWidth bodyHeight) ∧
      (containerStyle s w bodyWidth bodyHeight image).paddingRight =
        fitPaddingLeft bodyWidth (imageAspectRatio image)
          (screenAspectRatio bodyWidth bodyHeight)) := by
  have hi := reachable_inv s h
  constructor
  · intro hp
    have han : s.animating = true := by
      cases hu : s.updating <;> cases hc : s.closing <;> cases ho : s.opening <;>
        simp_all [Inv, ViewerState.animating]
    refine ⟨?_, ?_, ?_, ?_, ?_, ?_⟩ <;> simp [containerStyle, hp, han]
  · intro hp
    refine ⟨?_, ?_, ?_, ?_⟩ <;> simp [containerStyle, hp]

/-- Witness for C5: after a bare close call from the initial state the
machine is closing with no stored target, and the style is pinned to the
zero rectangle with zero padding. -/
theorem claim5_witness :
    ((run [Event.closeCall none]).updating || (run [Event.closeCall none]).closing) = true ∧
    (containerStyle (run [Event.closeCall none]) (fun _ => ⟨0, 0, 0, 0, 0, 0⟩)
      1000 1000 none).paddingLeft = 0 ∧
    (containerStyle (run [Event.closeCall none]) (fun _ => ⟨0, 0, 0, 0, 0, 0⟩)
      1000 1000 none).width = .px 0 := by
  refine ⟨rfl, ?_, ?_⟩
  · exact ((claim5_pinned_style (run [Event.closeCall none])
      ⟨[Event.closeCall none], rfl⟩ (fun _ => ⟨0, 0, 0, 0, 0, 0⟩) 1000 1000 none).1 rfl).1
  · have hw := ((claim5_pinned_style (run [Event.closeCall none])
      ⟨[Event.closeCall none], rfl⟩ (fun _ => ⟨0, 0, 0, 0, 0, 0⟩) 1000 1000 none).1 rfl).2.2.2.2.1
    simpa [targetWidthOr0] using hw

/-- Claim C9: in every state reachable from the initial Closed state by
open calls, close calls and timer firings, `opening` and `closing` are
never both true. -/
theorem claim9_not_both (s : ViewerState) (h : Reachable s) :
    ¬ (s.opening = true ∧ s.closing = true) := by
  have hi := reachable_inv s h
  rintro ⟨ho, hc⟩
  simp [Inv, ho, hc] at hi

/-- Witness for C9 at a concrete reachable state (right after an open). -/
theorem claim9_witness :
    ¬ ((run [Event.openCall exampleSource exampleTarget]).opening = true ∧
       (run [Event.openCall exampleSource exampleTarget]).closing = true) :=
  claim9_not_both (run [Event.openCall exampleSource exampleTarget])
    ⟨[Event.openCall exampleSource exampleTarget], rfl⟩

/-- Claim C10: `closeView` ignores its `animateTo` argument (any two
arguments give the same result); from the steady open state it sets only
`closing` and the `updating` pulse, leaving `animationTarget`, `source`,
`visible` and `opening` untouched, and after the pulse and the `duration`
timer fire, `visible` and `closing` are cleared while `animationTarget`
and `source` still hold the values stored by the preceding open. -/
theorem claim10_close_ignores_target (s : ViewerState) (a b : Option AnimationTarget)
    (hv : s.visible = true) (ho : s.opening = false) (hc : s.closing = false) :
    closeView a s = closeView b s ∧
    (closeView a s).animationTarget = s.animationTarget ∧
    (closeView a s).source = s.source ∧
    (closeView a s).visible = true ∧
    (closeView a s).opening = false ∧
    (closeView a s).closing = true ∧
    (closeView a s).updating = true ∧
    (fireCloseEnd (fireUpdateEnd (closeView a s))).animationTarget = s.animationTarget ∧
    (fireCloseEnd (fireUpdateEnd (closeView a s))).source = s.source ∧
    (fireCloseEnd (fireUpdateEnd (closeView a s))).visible = false ∧
    (fireCloseEnd (fireUpdateEnd (closeView a s))).closing = false := by
  have ha : s.animating = false := by simp [ViewerState.animating, ho, hc]
  simp [closeView, fireUpdateEnd, fireCloseEnd, ha, hv, ho]

/-- Witness for C10: from the concrete steady open state, a close call
with an explicit `animateTo` rectangle leaves the stored target untouched
and ends with `visible = false`. -/
theorem claim10_witness :
    (run steadyOpenEvents).visible = true ∧
    (closeView (some exampleTarget) (run steadyOpenEvents)).animationTarget =
      (run steadyOpenEvents).animationTarget ∧
    (fireCloseEnd (fireUpdateEnd
      (closeView (some exampleTarget) (run steadyOpenEvents)))).visible = false :=
  ⟨rfl,
   (claim10_close_ignores_target (run steadyOpenEvents) (some exampleTarget) none
     rfl rfl rfl).2.1,
   (claim10_close_ignores_target (run steadyOpenEvents) (some exampleTarget) none
     rfl rfl rfl).2.2.2.2.2.2.2.2.2.1⟩

end APV
